import Mathlib

/-!
Verification of the sound-tools audio-effect / MIDI-mapping engine.

Shallow embedding of the TypeScript sources:
* `ParameterStore` (BaseParameterStore.ts, PopupParameterStore.ts)
* `DistortionEffect.createDistortionCurve` (DistortionEffect.ts)
* `ReverbEffect` impulse-response bank and `roomSize` index selection (ReverbEffect.ts)
* `AudioProcessor` chain rebuild (AudioProcessor.ts)
* `MidiController` mapping creation / dispatch / listening state (MidiController.ts)

JavaScript `Map`s are modelled as association lists preserving insertion order,
JavaScript numbers as rationals (with an explicit non-finite variant where the
code tests `Number.isFinite`), and real-valued DSP formulas over `ℝ`.
-/

namespace SoundTools

/-! ## Association-list model of JavaScript `Map` -/

/-- `Map.get`: first binding for a key, if any. -/
def alookup {α : Type} (m : List (String × α)) (k : String) : Option α :=
  (m.find? (fun p => p.1 == k)).map (fun p => p.2)

/-- `Map.set`: update in place when the key exists (keeping its position),
otherwise append a new binding, mirroring JavaScript insertion order. -/
def aset {α : Type} (m : List (String × α)) (k : String) (v : α) : List (String × α) :=
  if (m.find? (fun p => p.1 == k)).isSome then
    m.map (fun p => if p.1 == k then (k, v) else p)
  else
    m ++ [(k, v)]

/-- `Map.delete`: drop the binding for a key. -/
def adelete {α : Type} (m : List (String × α)) (k : String) : List (String × α) :=
  m.filter (fun p => ¬ p.1 == k)

/-! ## JavaScript numbers

Only what the parameter-validation code observes: a finite rational value, or
one of the non-finite values `NaN`, `Infinity`, `-Infinity`.  Comparisons with
`NaN` are false, as in JavaScript. -/

inductive JSNum where
  | num (q : ℚ)
  | nan
  | posInf
  | negInf
  deriving DecidableEq

/-- `Number.isFinite`. -/
def JSNum.isFinite : JSNum → Bool
  | .num _ => true
  | _ => false

/-- `value >= m` for a finite bound `m`. -/
def JSNum.geQ : JSNum → ℚ → Bool
  | .num a, m => decide (m ≤ a)
  | .nan, _ => false
  | .posInf, _ => true
  | .negInf, _ => false

/-- `value <= m` for a finite bound `m`. -/
def JSNum.leQ : JSNum → ℚ → Bool
  | .num a, m => decide (a ≤ m)
  | .nan, _ => false
  | .posInf, _ => false
  | .negInf, _ => true

/-- The rational payload of a finite JavaScript number (junk on non-finite
values, which never reach the stores because validation filters them out). -/
def JSNum.toQ : JSNum → ℚ
  | .num a => a
  | _ => 0

/-! ## Parameter store (BaseParameterStore.ts / PopupParameterStore.ts) -/

structure ParameterDefinition where
  name : String
  label : String
  defaultValue : ℚ
  min : ℚ
  max : ℚ
  step : Option ℚ := none
  unit : Option String := none
  deriving DecidableEq

structure EffectDefinition where
  name : String
  label : String
  parameters : List ParameterDefinition
  deriving DecidableEq

/-- `EFFECT_DEFINITIONS` from BaseParameterStore.ts. -/
def EFFECT_DEFINITIONS : List EffectDefinition :=
  [ { name := "distortion", label := "Distortion",
      parameters :=
        [ { name := "amount", label := "Distortion Amount", defaultValue := 30,
            min := 0, max := 100, step := some 1, unit := some "%" } ] },
    { name := "reverb", label := "Reverb",
      parameters :=
        [ { name := "roomSize", label := "Room Size", defaultValue := 50,
            min := 0, max := 100, step := some 1, unit := some "%" },
          { name := "mix", label := "Reverb Mix", defaultValue := 30,
            min := 0, max := 100, step := some 1, unit := some "%" } ] },
    { name := "filter", label := "Filter",
      parameters :=
        [ { name := "highPassFreq", label := "High-Pass Frequency", defaultValue := 20,
            min := 0, max := 100, step := some 1, unit := some "%" },
          { name := "highPassQ", label := "High-Pass Resonance (Q)", defaultValue := 10,
            min := 0, max := 100, step := some 1, unit := some "%" },
          { name := "lowPassFreq", label := "Low-Pass Frequency", defaultValue := 80,
            min := 0, max := 100, step := some 1, unit := some "%" },
          { name := "lowPassQ", label := "Low-Pass Resonance (Q)", defaultValue := 10,
            min := 0, max := 100, step := some 1, unit := some "%" } ] } ]

/-- `parameterDefinitions.get(effectName)?.get(parameterName)`: the definition
maps are built once from `EFFECT_DEFINITIONS`, so lookup is a search there. -/
def getParameterDefinitionOf (effectName parameterName : String) :
    Option ParameterDefinition :=
  match EFFECT_DEFINITIONS.find? (fun e => e.name == effectName) with
  | none => none
  | some eff => eff.parameters.find? (fun p => p.name == parameterName)

/-- `BaseParameterStore.isValidParameter`. -/
def isValidParameter (effectName parameterName : String) (value : JSNum) : Bool :=
  match getParameterDefinitionOf effectName parameterName with
  | none => false
  | some pd => value.geQ pd.min && value.leQ pd.max && value.isFinite

/-- The mutable state of a parameter store: `parameters` maps effect name to a
map from parameter name to the stored (finite) value. -/
structure PStoreState where
  parameters : List (String × List (String × ℚ))
  deriving DecidableEq

/-- `BaseParameterStore.getParameter`, presented as a state transformer to make
explicit that the read does not change the store. -/
def getParameterM (s : PStoreState) (effectName parameterName : String) :
    ℚ × PStoreState :=
  match alookup s.parameters effectName with
  | none => (0, s)
  | some effectParams =>
    match alookup effectParams parameterName with
    | none => (0, s)
    | some v => (v, s)

/-- `effectParams.set(parameterName, value)` inside the outer map. -/
def setStoredValue (parameters : List (String × List (String × ℚ)))
    (effectName parameterName : String) (v : ℚ) :
    List (String × List (String × ℚ)) :=
  aset parameters effectName (aset ((alookup parameters effectName).getD []) parameterName v)

/-- `PopupParameterStore.setParameter`.  Sending the update to the content
script is an external effect whose outcome is passed in as `sendSuccess`. -/
def setParameter (s : PStoreState) (effectName parameterName : String)
    (value : JSNum) (sendSuccess : Bool) : Bool × PStoreState :=
  if isValidParameter effectName parameterName value = false then
    (false, s)
  else
    match alookup s.parameters effectName with
    | none => (false, s)
    | some _ =>
      let p1 := setStoredValue s.parameters effectName parameterName value.toQ
      if sendSuccess then
        (true, { s with parameters := p1 })
      else
        let stored := (getParameterM { s with parameters := p1 } effectName parameterName).1
        (false, { s with parameters := setStoredValue p1 effectName parameterName stored })

/-! ## Reverb (ReverbEffect.ts) -/

/-- `generateImpulseResponseBank`: 20 impulse responses, entry `i` with
duration `0.3 + (i/19)·3.7` seconds and decay exponent `1 + (i/19)·4`
(the random sample data itself is irrelevant to the index-selection claim). -/
def impulseResponseBank : List (ℚ × ℚ) :=
  (List.range 20).map (fun (i : ℕ) =>
    ((3 : ℚ)/10 + ((i : ℚ) / 19) * (37/10), 1 + ((i : ℚ) / 19) * 4))

/-- `ReverbEffect.updateParameter`, `roomSize` branch: the bank index actually
selected for a `roomSize` value.  The code computes
`Math.floor((value / 100) * (impulseBank.length - 1))` and clamps it with
`Math.max(0, Math.min(bankIndex, impulseBank.length - 1))`. -/
def reverbRoomSizeIndex (value : ℚ) : ℕ :=
  let lenM1 : ℤ := (impulseResponseBank.length : ℤ) - 1
  let bankIndex : ℤ := Int.floor (value / 100 * (lenM1 : ℚ))
  (max 0 (min bankIndex lenM1)).toNat

/-- Modelled from the claim's words (not the source): bank index
`round((roomSize/100)·(N-1))` clamped to `[0, N-1]`, with `N = 20`. -/
def specRoundRoomIndex (value : ℚ) : ℕ :=
  let lenM1 : ℤ := 20 - 1
  (max 0 (min (round (value / 100 * (lenM1 : ℚ))) lenM1)).toNat

/-! ## Distortion (DistortionEffect.ts) -/

/-- `DistortionEffect.createDistortionCurve`: 44100-entry wave-shaping table.
`amount = 0` produces the identity line; otherwise
`curve[i] = ((3+amount)·x·20·deg) / (π + amount·|x|)` with `deg = π/180` and
`x = (i·2)/samples − 1`. -/
noncomputable def createDistortionCurve (amount : ℝ) : List ℝ :=
  let samples : ℕ := 44100
  if amount = 0 then
    (List.range samples).map (fun (i : ℕ) => (i : ℝ) * 2 / (samples : ℝ) - 1)
  else
    let deg : ℝ := Real.pi / 180
    (List.range samples).map (fun (i : ℕ) =>
      let x : ℝ := (i : ℝ) * 2 / (samples : ℝ) - 1
      ((3 + amount) * x * 20 * deg) / (Real.pi + amount * |x|))

/-! ## AudioProcessor (AudioProcessor.ts) -/

/-- `AudioProcessor.EFFECT_ORDER`: fixed processing priority. -/
def EFFECT_ORDER : List String := ["distortion", "reverb", "filter"]

/-- The names registered by `initializeEffects` (Filter, Distortion, Reverb). -/
def availableEffectNames : List String := ["filter", "distortion", "reverb"]

/-- AudioProcessor state relevant to chain construction: the enabled-effect set
(a JavaScript `Set`, i.e. insertion-ordered and duplicate-free) and the
per-effect stored parameter values. -/
structure APState where
  enabledEffects : List String
  effectParameters : List (String × List (String × ℚ))
  deriving DecidableEq

/-- `initializeDefaultParameters`. -/
def apInit : APState :=
  { enabledEffects := [],
    effectParameters :=
      [ ("distortion", [("amount", 30)]),
        ("reverb", [("roomSize", 50), ("mix", 30)]),
        ("filter", [("highPassFreq", 20), ("highPassQ", 10),
                    ("lowPassFreq", 80), ("lowPassQ", 10)]) ] }

/-- `AudioProcessor.enableEffect`. -/
def enableEffect (s : APState) (name : String) : APState :=
  if name ∈ availableEffectNames ∧ name ∉ s.enabledEffects then
    { s with enabledEffects := s.enabledEffects ++ [name] }
  else s

/-- `AudioProcessor.disableEffect`. -/
def disableEffect (s : APState) (name : String) : APState :=
  if name ∈ s.enabledEffects then
    { s with enabledEffects := s.enabledEffects.filter (fun e => ¬ e == name) }
  else s

/-- `connectAudioChain`: the ordered list of effect nodes a source is routed
through before reaching the destination — the walk over `EFFECT_ORDER`
restricted to currently-enabled effects. -/
def chainEffects (s : APState) : List String :=
  EFFECT_ORDER.filter (fun e => e ∈ s.enabledEffects)

/-- The full node path built by `connectAudioChain` for one media element. -/
def chainNodes (s : APState) : List String :=
  "source" :: chainEffects s ++ ["destination"]

/-- `applyStoredParameters` during a rebuild: for each effect node created by
`connectAudioChain`, the ordered parameter/value pairs applied to it. -/
def rebuildApplications (s : APState) : List (String × List (String × ℚ)) :=
  (chainEffects s).map (fun e => (e, (alookup s.effectParameters e).getD []))

/-! ## MidiController (MidiController.ts): messages, mappings and dispatch -/

/-- `MidiMapping`.  `type`, `midiType` and ids are kept as strings, as in the
source (the TypeScript union types are string literals). -/
structure MidiMapping where
  id : String
  type : String
  effect : String
  parameter : Option String := none
  midiType : String
  midiChannel : ℕ
  midiNote : Option ℕ := none
  midiCC : Option ℕ := none
  deriving DecidableEq

/-- `MidiActivity`. -/
structure MidiActivity where
  type : String
  message : String
  timestamp : ℕ
  rawData : List ℕ
  deriving DecidableEq

/-- `getNoteNameFromNumber`. -/
def getNoteNameFromNumber (noteNumber : ℕ) : String :=
  let lower := ["C", "C#", "D", "D#", "E", "F"]
  let noteNames := lower ++ ["F#", "G", "G#", "A", "A#", "B"]
  let octave : ℤ := (noteNumber / 12 : ℕ) - 1
  let note := noteNames.getD (noteNumber % 12) ""
  note ++ toString octave

/-- `getMidiKey`: the string key `"{type}-{channel}-{noteOrCC}"`. -/
def getMidiKey (type : String) (channel noteOrCC : ℕ) : String :=
  type ++ "-" ++ toString channel ++ "-" ++ toString noteOrCC

/-- `parseMidiMessage`: decode status/data bytes into a typed activity;
Program Change (`0xC0`) messages return `none` and are ignored. -/
def parseMidiMessage (status data1 _data2 : ℕ) (rawData : List ℕ)
    (timestamp : ℕ) : Option MidiActivity :=
  if status &&& 0xf0 = 0x90 then
    some { type := "note", message := getNoteNameFromNumber data1,
           timestamp := timestamp, rawData := rawData }
  else if status &&& 0xf0 = 0x80 then
    some { type := "note", message := getNoteNameFromNumber data1,
           timestamp := timestamp, rawData := rawData }
  else if status &&& 0xf0 = 0xb0 then
    some { type := "control", message := "CC" ++ toString data1,
           timestamp := timestamp, rawData := rawData }
  else if status &&& 0xf0 = 0xc0 then
    none
  else if status &&& 0xf0 = 0xe0 then
    some { type := "control", message := "Pitch Bend",
           timestamp := timestamp, rawData := rawData }
  else
    some { type := "unknown", message := "MIDI",
           timestamp := timestamp, rawData := rawData }

/-- `Math.round((data2 / 127) * 100)`: the 0-127 → 0-100 scaling used by
dispatch (`data2` is a non-negative byte, so the result is a natural). -/
def scaledMidiValue (data2 : ℕ) : ℕ :=
  (round ((data2 : ℚ) / 127 * 100)).toNat

/-- The two skip rules of `checkMidiMappings`: note mappings ignore Note-Off
and Note-On-with-velocity-0 messages. -/
def noteSkip (m : MidiMapping) (status data2 : ℕ) : Bool :=
  (m.midiType == "note" && status &&& 0xf0 == 0x80) ||
  (m.midiType == "note" && status &&& 0xf0 == 0x90 && data2 == 0)

/-- The dispatch value computed by `checkMidiMappings` for one mapping. -/
def triggerValue (m : MidiMapping) (data2 : ℕ) : ℕ :=
  if m.midiType == "note" then
    if m.type == "effect-toggle" then (if data2 < 64 then 0 else 1)
    else scaledMidiValue data2
  else
    if m.type == "effect-toggle" then (if scaledMidiValue data2 < 50 then 0 else 1)
    else scaledMidiValue data2

/-- `checkMidiMappings`: the list of `(mapping, value)` pairs passed to
`onMidiMappingTriggered` for one incoming message. -/
def checkMidiMappings (table : List (String × List MidiMapping))
    (activityType : String) (status data1 data2 : ℕ) : List (MidiMapping × ℕ) :=
  let channel := (status &&& 0x0f) + 1
  let midiKey := getMidiKey activityType channel data1
  ((alookup table midiKey).getD []).filterMap (fun m =>
    if noteSkip m status data2 then none else some (m, triggerValue m data2))

/-- `handleMidiMessage`, dispatch side: parse the raw bytes and, if the
activity is not `none`, run `checkMidiMappings` keyed on the activity type. -/
def handleDispatches (table : List (String × List MidiMapping))
    (status data1 data2 : ℕ) : List (MidiMapping × ℕ) :=
  match parseMidiMessage status data1 data2 [status, data1, data2] 0 with
  | none => []
  | some activity => checkMidiMappings table activity.type status data1 data2

/-- Well-formedness of the mapping table as maintained by the controller:
every stored mapping is a note or control mapping filed under the key built
from its own MIDI type, channel, and note/CC value. -/
def WellFormedTable (table : List (String × List MidiMapping)) : Prop :=
  ∀ p ∈ table, ∀ m ∈ p.2,
    ((m.midiType = "note" ∧ ∃ v, m.midiNote = some v ∧
        p.1 = getMidiKey "note" m.midiChannel v) ∨
     (m.midiType = "control" ∧ ∃ v, m.midiCC = some v ∧
        p.1 = getMidiKey "control" m.midiChannel v))

/-- A concrete control-change mapping for `reverb.mix` on CC 7, channel 1,
used to exercise the dispatch path on concrete inputs. -/
def mixCCMapping : MidiMapping :=
  { id := "effect-parameter-reverb-mix", type := "effect-parameter",
    effect := "reverb", midiType := "control", midiChannel := 1,
    midiCC := some 7 }

/-- A one-entry mapping table holding `mixCCMapping` under its MIDI key. -/
def mixCCTable : List (String × List MidiMapping) :=
  [(getMidiKey "control" 1 7, [mixCCMapping])]

/-- A concrete note mapping toggling distortion from note 60, channel 1. -/
def noteToggleMapping : MidiMapping :=
  { id := "effect-toggle-distortion", type := "effect-toggle",
    effect := "distortion", midiType := "note", midiChannel := 1,
    midiNote := some 60 }

/-- A one-entry mapping table holding `noteToggleMapping` under its key. -/
def noteToggleTable : List (String × List MidiMapping) :=
  [(getMidiKey "note" 1 60, [noteToggleMapping])]

/-! ## MidiController state machine (connection, learning, linking) -/

/-- The host MIDI environment: whether `requestMIDIAccess` would succeed, the
available input device ids, and the stored per-device configurations. -/
structure MidiEnv where
  accessGrant : Bool
  inputs : List String
  configs : List (String × List MidiMapping)

/-- The mutable `MidiController` fields the claims are about.  `listeners` is
the set of hardware inputs whose `onmidimessage` handler is currently set. -/
structure MidiState where
  midiAccess : Bool
  isConnected : Bool
  connectedDeviceId : Option String
  isLearning : Bool
  isLinked : Bool
  lastActivity : Option MidiActivity
  midiMappings : List (String × List MidiMapping)
  listeners : List String
  deriving DecidableEq

/-- A freshly constructed controller. -/
def initialMidiState : MidiState :=
  { midiAccess := false, isConnected := false, connectedDeviceId := none,
    isLearning := false, isLinked := false, lastActivity := none,
    midiMappings := [], listeners := [] }

/-- `device.onmidimessage = handler` (idempotent). -/
def attachListener (ls : List String) (d : String) : List String :=
  if d ∈ ls then ls else ls ++ [d]

/-- `device.onmidimessage = null`. -/
def detachListener (ls : List String) (d : String) : List String :=
  ls.filter (fun x => ¬ x == d)

/-- `updateMidiListening`. -/
def updateMidiListening (env : MidiEnv) (s : MidiState) : MidiState :=
  match s.connectedDeviceId with
  | some d =>
    if s.isConnected ∧ s.midiAccess = true then
      if d ∈ env.inputs then
        if s.isLearning ∨ s.isLinked then
          { s with listeners := attachListener s.listeners d }
        else
          { s with listeners := detachListener s.listeners d }
      else s
    else s
  | none => s

/-- `updateLinkedState`. -/
def updateLinkedState (env : MidiEnv) (s : MidiState) : MidiState :=
  let hasActiveMappings : Bool := !s.midiMappings.isEmpty
  let s1 := { s with isLinked := hasActiveMappings }
  if s.isLinked = hasActiveMappings then s1 else updateMidiListening env s1

/-- `disconnect` (the storage-clearing flags have no effect on this state). -/
def disconnect (env : MidiEnv) (s : MidiState) : MidiState :=
  let ls :=
    match s.connectedDeviceId with
    | some d => if s.midiAccess ∧ d ∈ env.inputs then detachListener s.listeners d
                else s.listeners
    | none => s.listeners
  let s1 := { s with listeners := ls, isConnected := false, isLearning := false,
                     lastActivity := none, midiMappings := [] }
  let s2 := updateLinkedState env s1
  { s2 with connectedDeviceId := none }

/-- `setLearning`. -/
def setLearning (env : MidiEnv) (s : MidiState) (enabled : Bool) : MidiState :=
  let s1 := { s with isLearning := enabled,
                     lastActivity := if enabled then s.lastActivity else none }
  updateMidiListening env s1

/-- `midiNote ?? midiCC`. -/
def mappingMidiValue (m : MidiMapping) : Option ℕ :=
  m.midiNote <|> m.midiCC

/-- `mappingExists`. -/
def mappingExists (table : List (String × List MidiMapping)) (targetId : String)
    (midiType : String) (midiChannel midiValue : ℕ) : Bool :=
  let midiKey := getMidiKey midiType midiChannel midiValue
  ((alookup table midiKey).getD []).any (fun ex =>
    ex.id == targetId && ex.midiType == midiType && ex.midiChannel == midiChannel &&
    ((midiType == "note" && ex.midiNote == some midiValue) ||
     (midiType == "control" && ex.midiCC == some midiValue)))

/-- Store a mapping under a MIDI key (append to the key's array). -/
def addMapping (table : List (String × List MidiMapping)) (midiKey : String)
    (m : MidiMapping) : List (String × List MidiMapping) :=
  aset table midiKey ((alookup table midiKey).getD [] ++ [m])

/-- One step of `restoreMidiMappings`: skip entries without a note/CC value
and exact duplicates, store the rest. -/
def restoreOne (table : List (String × List MidiMapping)) (m : MidiMapping) :
    List (String × List MidiMapping) :=
  match mappingMidiValue m with
  | none => table
  | some v =>
    if mappingExists table m.id m.midiType m.midiChannel v then table
    else addMapping table (getMidiKey m.midiType m.midiChannel v) m

/-- `restoreMidiMappings`. -/
def restoreMidiMappings (env : MidiEnv) (s : MidiState)
    (stored : List MidiMapping) : MidiState :=
  updateLinkedState env { s with midiMappings := stored.foldl restoreOne s.midiMappings }

/-- `connectToDevice`.  The two `throw` paths (no MIDI access, device id not
found) run the `catch` block, which marks the controller disconnected without
detaching any listener. -/
def connectToDevice (env : MidiEnv) (s : MidiState) (deviceId : String) : MidiState :=
  if s.midiAccess = false then
    { s with isConnected := false, connectedDeviceId := none }
  else if deviceId ∉ env.inputs then
    { s with isConnected := false, connectedDeviceId := none }
  else
    let s1 := if s.isConnected then disconnect env s else s
    let s2 := if s1.isLearning then
                { s1 with listeners := attachListener s1.listeners deviceId }
              else s1
    let s3 := { s2 with isConnected := true, connectedDeviceId := some deviceId }
    match alookup env.configs deviceId with
    | none => s3
    | some cfg => restoreMidiMappings env s3 cfg

/-- JavaScript `targetId.split('-')` over the character list: split at every
hyphen; an empty string yields `[""]`, and leading/trailing separators yield
empty segments, as in JavaScript. -/
def splitDashChars : List Char → List String
  | [] => [""]
  | c :: rest =>
    let r := splitDashChars rest
    if c = '-' then "" :: r
    else
      match r with
      | [] => [String.mk [c]]
      | hd :: tl => String.mk (c :: hd.data) :: tl

/-- JavaScript `targetId.split('-')`. -/
def splitDash (s : String) : List String :=
  splitDashChars s.data

/-- `createMidiLinkFromActivity`: returns the new state and the list of
mappings passed to the `onMidiMappingCreated` callback (empty or singleton). -/
def createMidiLinkFromActivity (env : MidiEnv) (s : MidiState) (targetId : String)
    (activity : MidiActivity) : MidiState × List MidiMapping :=
  if activity.type ≠ "note" ∧ activity.type ≠ "control" then (s, [])
  else
    match activity.rawData[0]?, activity.rawData[1]? with
    | some status, some data1 =>
      if status = 0 then (s, [])
      else
        let channel := (status &&& 0x0f) + 1
        let parts := splitDash targetId
        if parts.length < 3 then (s, [])
        else
          match parts with
          | part0 :: part1 :: effect :: remainingParts =>
            let type := part0 ++ "-" ++ part1
            let pjoin := String.intercalate "-" remainingParts
            let parameter :=
              if remainingParts.length > 0 ∧ pjoin ≠ "" then some pjoin else none
            if effect = "" then (s, [])
            else
              let mapping : MidiMapping :=
                { id := targetId, type := type, effect := effect,
                  parameter := parameter, midiType := activity.type,
                  midiChannel := channel,
                  midiNote := if activity.type = "note" then some data1 else none,
                  midiCC := if activity.type = "control" then some data1 else none }
              if mappingExists s.midiMappings targetId mapping.midiType channel data1 then
                (s, [])
              else
                let midiKey := getMidiKey mapping.midiType channel data1
                let s1 := { s with midiMappings := addMapping s.midiMappings midiKey mapping }
                (updateLinkedState env s1, [mapping])
          | _ => (s, [])
    | _, _ => (s, [])

/-- `requestMidiLink`. -/
def requestMidiLink (env : MidiEnv) (s : MidiState) (targetId : String) :
    MidiState × List MidiMapping :=
  match s.lastActivity with
  | none => (s, [])
  | some activity => createMidiLinkFromActivity env s targetId activity

/-- `removeSpecificMapping`. -/
def removeSpecificMapping (env : MidiEnv) (s : MidiState) (midiType : String)
    (midiChannel midiValue : ℕ) : MidiState × Bool :=
  let midiKey := getMidiKey midiType midiChannel midiValue
  match alookup s.midiMappings midiKey with
  | some (_ :: rest) =>
    let table := if rest.isEmpty then adelete s.midiMappings midiKey
                 else aset s.midiMappings midiKey rest
    (updateLinkedState env { s with midiMappings := table }, true)
  | _ => (s, false)

/-- `handleMidiMessage`, state side: record the activity as `lastActivity`
when learning is active (the dispatch side is `handleDispatches`). -/
def handleMidiMessageState (s : MidiState) (data : List ℕ) (timestamp : ℕ) : MidiState :=
  let status := (data[0]?).getD 0
  let data1 := (data[1]?).getD 0
  let data2 := (data[2]?).getD 0
  match parseMidiMessage status data1 data2 data timestamp with
  | none => s
  | some activity =>
    if s.isLearning then { s with lastActivity := some activity } else s

/-- The externally triggerable `MidiController` operations. -/
inductive MidiOp where
  | requestPermission (granted : Bool)
  | connect (deviceId : String)
  | disconnectOp (clearLastActive clearAllConfigurations : Bool)
  | setLearningOp (enabled : Bool)
  | requestLinkOp (targetId : String)
  | removeMappingOp (midiType : String) (midiChannel midiValue : ℕ)
  | restoreMappingsOp (stored : List MidiMapping)
  | midiMessageOp (data : List ℕ) (timestamp : ℕ)
  deriving DecidableEq

/-- One operation.  `requestPermission` only succeeds when the host grants it;
`restoreMidiState` restores mappings only when a device is connected; hardware
messages arrive only while some listener is attached. -/
def midiStep (env : MidiEnv) (s : MidiState) : MidiOp → MidiState
  | .requestPermission granted =>
    if granted ∧ env.accessGrant then { s with midiAccess := true } else s
  | .connect deviceId => connectToDevice env s deviceId
  | .disconnectOp _ _ => disconnect env s
  | .setLearningOp enabled => setLearning env s enabled
  | .requestLinkOp targetId => (requestMidiLink env s targetId).1
  | .removeMappingOp midiType midiChannel midiValue =>
    (removeSpecificMapping env s midiType midiChannel midiValue).1
  | .restoreMappingsOp stored =>
    if s.isConnected then restoreMidiMappings env s stored else s
  | .midiMessageOp data timestamp =>
    if s.listeners.isEmpty then s else handleMidiMessageState s data timestamp

/-- Run a list of operations from a state. -/
def runOps (env : MidiEnv) (s : MidiState) (ops : List MidiOp) : MidiState :=
  ops.foldl (midiStep env) s

/-- An operation "succeeds" when it does not throw: only `connectToDevice`
can throw (no MIDI access, or device id not found). -/
def opSucceeds (env : MidiEnv) (s : MidiState) : MidiOp → Prop
  | .connect deviceId => s.midiAccess = true ∧ deviceId ∈ env.inputs
  | _ => True

instance (env : MidiEnv) (s : MidiState) (op : MidiOp) :
    Decidable (opSucceeds env s op) := by
  cases op <;> simp only [opSucceeds] <;> infer_instance

/-- Every operation along the run completed without throwing. -/
def RunOk (env : MidiEnv) : MidiState → List MidiOp → Prop
  | _, [] => True
  | s, op :: rest => opSucceeds env s op ∧ RunOk env (midiStep env s op) rest

instance (env : MidiEnv) : ∀ (s : MidiState) (ops : List MidiOp),
    Decidable (RunOk env s ops)
  | _, [] => by simp only [RunOk]; infer_instance
  | s, op :: rest =>
    have : Decidable (RunOk env (midiStep env s op) rest) :=
      instDecidableRunOk env (midiStep env s op) rest
    by simp only [RunOk]; infer_instance

/-- What claim C4 asserts of a controller state: `isLinked` is exactly "some
mapping is stored", and a hardware input's handler is attached exactly when
that input is the connected device and learning or linked is on. -/
def c4ClaimHolds (s : MidiState) : Prop :=
  (s.isLinked = true ↔ ∃ p, p ∈ s.midiMappings ∧ ∃ m, m ∈ p.2) ∧
  (∀ d, d ∈ s.listeners ↔
    (s.isConnected = true ∧ s.connectedDeviceId = some d ∧
     (s.isLearning = true ∨ s.isLinked = true)))

/-- Internal invariant implying the claim, preserved by successful steps. -/
def MidiInv (env : MidiEnv) (s : MidiState) : Prop :=
  s.isLinked = !s.midiMappings.isEmpty ∧
  (∀ p ∈ s.midiMappings, p.2 ≠ []) ∧
  s.listeners = (if s.isConnected = true ∧ (s.isLearning = true ∨ s.isLinked = true)
                 then s.connectedDeviceId.toList else []) ∧
  (s.isConnected = true → s.midiAccess = true ∧
    ∃ d, s.connectedDeviceId = some d ∧ d ∈ env.inputs) ∧
  (s.isConnected = false → s.connectedDeviceId = none ∧ s.lastActivity = none ∧
    s.midiMappings = [])

/-- The mapping record built by `createMidiLinkFromActivity` from a parsed
target id and the last activity's status byte data. -/
def mkLinkMapping (targetId ty : String) (channel data1 : ℕ)
    (p0 p1 eff : String) (restParts : List String) : MidiMapping :=
  { id := targetId, type := p0 ++ "-" ++ p1, effect := eff,
    parameter := if restParts.length > 0 ∧ String.intercalate "-" restParts ≠ ""
                 then some (String.intercalate "-" restParts) else none,
    midiType := ty, midiChannel := channel,
    midiNote := if ty = "note" then some data1 else none,
    midiCC := if ty = "control" then some data1 else none }

/-- The state after `createMidiLinkFromActivity` stores a new mapping and
re-derives the linked state. -/
def linkedStateAfter (env : MidiEnv) (s : MidiState) (targetId ty : String)
    (channel data1 : ℕ) (p0 p1 eff : String) (restParts : List String) : MidiState :=
  updateLinkedState env
    { s with
      midiMappings := addMapping s.midiMappings (getMidiKey ty channel data1)
        (mkLinkMapping targetId ty channel data1 p0 p1 eff restParts) }

/-- A concrete Note-On snapshot (channel 1, note 60, velocity 100). -/
def c6Activity : MidiActivity :=
  { type := "note", message := "C4", timestamp := 0, rawData := [144, 60, 100] }

/-- A controller state holding `c6Activity` as its last activity. -/
def c6State : MidiState :=
  { initialMidiState with lastActivity := some c6Activity }

/-- A minimal host environment. -/
def c6Env : MidiEnv :=
  { accessGrant := true, inputs := ["device-1"], configs := [] }

/-- A host with one device "A", permission grantable, no stored configs. -/
def c4Env : MidiEnv := { accessGrant := true, inputs := ["A"], configs := [] }

/-- A successful operation sequence: permission, learn on, connect, one
hardware message, disconnect. -/
def c4OkTrace : List MidiOp :=
  [.requestPermission true, .setLearningOp true, .connect "A",
   .midiMessageOp [144, 60, 100] 1, .disconnectOp false false]

/-- The same prefix followed by a connect to an unknown device id "B", which
throws inside `connectToDevice` after the previous listener was attached. -/
def c4FailTrace : List MidiOp :=
  [.requestPermission true, .setLearningOp true, .connect "A", .connect "B"]

theorem alookup_aset_self {α : Type} (m : List (String × α)) (k : String) (v : α) :
    alookup (aset m k v) k = some v := by
  unfold alookup aset
  by_cases h : (m.find? (fun p => p.1 == k)).isSome
  · simp only [h, if_true]
    induction m with
    | nil => simp [List.find?] at h
    | cons p rest ih =>
      by_cases hp : p.1 == k
      · simp [List.find?, hp]
      · simp only [List.find?, hp, Bool.false_eq_true] at h
        simp only [List.map_cons, hp, if_false]
        have := ih h
        simpa [List.find?, hp] using this
  · simp only [h, if_false]
    induction m with
    | nil => simp [List.find?]
    | cons p rest ih =>
      by_cases hp : p.1 == k
      · simp [List.find?, hp] at h
      · simp only [List.find?, hp, Bool.false_eq_true] at h ⊢
        simpa [List.find?, hp] using ih h

theorem find?_map_replace {α : Type} (rest : List (String × α)) (k k' : String) (v : α)
    (h : k ≠ k') :
    (rest.map (fun p => if p.1 == k then (k, v) else p)).find? (fun p => p.1 == k') =
      rest.find? (fun p => p.1 == k') := by
  induction rest with
  | nil => simp
  | cons p tail ih =>
    by_cases hp : (p.1 == k) = true
    · have hpk : p.1 = k := by simpa using hp
      have hk : ((k : String) == k') = false := by simpa using h
      have hk2 : (p.1 == k') = false := by simpa [hpk] using h
      rw [List.map_cons, if_pos hp]
      simp only [List.find?_cons, hk, hk2]
      exact ih
    · rw [List.map_cons, if_neg hp]
      by_cases hp2 : (p.1 == k') = true
      · simp only [List.find?_cons, hp2]
      · have hp2f : (p.1 == k') = false := by simpa using hp2
        simp only [List.find?_cons, hp2f]
        exact ih

theorem alookup_aset_ne {α : Type} (m : List (String × α)) (k k' : String) (v : α)
    (h : k ≠ k') : alookup (aset m k v) k' = alookup m k' := by
  unfold alookup aset
  by_cases hs : (m.find? (fun p => p.1 == k)).isSome = true
  · rw [if_pos hs, find?_map_replace m k k' v h]
  · rw [if_neg hs, List.find?_append]
    simp [h]

theorem mem_foldl_enableEffect (ops : List String) (s : APState) (x : String) :
    x ∈ (ops.foldl enableEffect s).enabledEffects ↔
      x ∈ s.enabledEffects ∨ (x ∈ ops ∧ x ∈ availableEffectNames) := by
  induction ops generalizing s with
  | nil => simp
  | cons o rest ih =>
    simp only [List.foldl_cons, ih]
    unfold enableEffect
    by_cases h : o ∈ availableEffectNames ∧ o ∉ s.enabledEffects
    · rw [if_pos h]
      simp only [List.mem_append, List.mem_singleton, List.mem_cons,
        List.not_mem_nil, or_false]
      constructor
      · rintro ((hx | rfl) | hx)
        · exact Or.inl hx
        · exact Or.inr ⟨Or.inl rfl, h.1⟩
        · exact Or.inr ⟨Or.inr hx.1, hx.2⟩
      · rintro (hx | ⟨(rfl | hx), hav⟩)
        · exact Or.inl (Or.inl hx)
        · exact Or.inl (Or.inr rfl)
        · exact Or.inr ⟨hx, hav⟩
    · rw [if_neg h]
      simp only [List.mem_cons]
      constructor
      · rintro (hx | hx)
        · exact Or.inl hx
        · exact Or.inr ⟨Or.inr hx.1, hx.2⟩
      · rintro (hx | ⟨(rfl | hx), hav⟩)
        · exact Or.inl hx
        · rcases Decidable.em (x ∈ s.enabledEffects) with hm | hm
          · exact Or.inl hm
          · exact absurd ⟨hav, hm⟩ h
        · exact Or.inr ⟨hx, hav⟩

theorem foldl_enableEffect_parameters (ops : List String) (s : APState) :
    (ops.foldl enableEffect s).effectParameters = s.effectParameters := by
  induction ops generalizing s with
  | nil => rfl
  | cons o rest ih =>
    simp only [List.foldl_cons]
    rw [ih]
    unfold enableEffect
    by_cases h : o ∈ availableEffectNames ∧ o ∉ s.enabledEffects
    · rw [if_pos h]
    · rw [if_neg h]

/-- C1: for every subset `E` of the three effects, enabling the effects of `E`
in any order and rebuilding connects each media-element source to the
destination through exactly the effects of `E`, in the fixed priority order
distortion, reverb, filter — independent of enabling order. -/
theorem chain_fixed_priority_order (E perm : List String)
    (_hE : ∀ e ∈ E, e ∈ EFFECT_ORDER) (hperm : perm.Perm E) :
    chainNodes (perm.foldl enableEffect apInit) =
      "source" :: EFFECT_ORDER.filter (fun e => e ∈ E) ++ ["destination"] := by
  unfold chainNodes chainEffects
  congr 1
  congr 1
  apply List.filter_congr
  intro e he
  have hav : ∀ x ∈ EFFECT_ORDER, x ∈ availableEffectNames := by
    intro x hx
    simp only [EFFECT_ORDER, List.mem_cons, List.not_mem_nil, or_false] at hx
    rcases hx with rfl | rfl | rfl <;> simp [availableEffectNames]
  have h1 := mem_foldl_enableEffect perm apInit e
  have hne : e ∉ apInit.enabledEffects := by simp [apInit]
  have h2 : e ∈ perm ↔ e ∈ E := hperm.mem_iff
  simp only [decide_eq_decide]
  rw [h1, h2]
  constructor
  · rintro (habs | ⟨hmem, _⟩)
    · exact absurd habs hne
    · exact hmem
  · intro hmem
    exact Or.inr ⟨hmem, hav e he⟩

theorem chain_fixed_priority_order_witness :
    ((∀ e ∈ ["reverb", "distortion"], e ∈ EFFECT_ORDER) ∧
     (["reverb", "distortion"] : List String).Perm ["reverb", "distortion"] ∧
     chainNodes ((["reverb", "distortion"] : List String).foldl enableEffect apInit) =
       ["source", "distortion", "reverb", "destination"]) := by
  refine ⟨by decide, List.Perm.refl _, ?_⟩
  have h := chain_fixed_priority_order ["reverb", "distortion"] ["reverb", "distortion"]
    (by decide) (List.Perm.refl _)
  rw [h]
  decide

/-- C7: disabling and then re-enabling an effect, with no parameter updates in
between, makes the rebuild apply exactly the same parameter values to the
newly created effect node as were applied before. -/
theorem reenable_applies_same_parameters (s : APState) (e : String)
    (he : e ∈ s.enabledEffects) (hav : e ∈ availableEffectNames) :
    rebuildApplications (enableEffect (disableEffect s e) e) = rebuildApplications s := by
  have hd : disableEffect s e =
      { s with enabledEffects := s.enabledEffects.filter (fun x => ¬ x == e) } := by
    unfold disableEffect
    rw [if_pos he]
  have hene : e ∉ (disableEffect s e).enabledEffects := by
    rw [hd]
    simp
  have hen : enableEffect (disableEffect s e) e =
      { s with enabledEffects := s.enabledEffects.filter (fun x => ¬ x == e) ++ [e] } := by
    unfold enableEffect
    rw [if_pos ⟨hav, hene⟩, hd]
  have hmem : ∀ x, (x ∈ s.enabledEffects.filter (fun y => ¬ y == e) ++ [e]) ↔
      x ∈ s.enabledEffects := by
    intro x
    simp only [List.mem_append, List.mem_filter, List.mem_singleton]
    constructor
    · rintro (⟨hx, _⟩ | rfl)
      · exact hx
      · exact he
    · intro hx
      by_cases hxe : x = e
      · exact Or.inr hxe
      · exact Or.inl ⟨hx, by simpa using hxe⟩
  have hchain : chainEffects (enableEffect (disableEffect s e) e) = chainEffects s := by
    unfold chainEffects
    rw [hen]
    apply List.filter_congr
    intro x _
    simp only [decide_eq_decide]
    show (x ∈ s.enabledEffects.filter (fun y => ¬ y == e) ++ [e]) ↔ x ∈ s.enabledEffects
    exact hmem x
  have hparams : (enableEffect (disableEffect s e) e).effectParameters =
      s.effectParameters := by
    rw [hen]
  unfold rebuildApplications
  rw [hchain, hparams]

theorem reenable_applies_same_parameters_witness :
    (("distortion" : String) ∈ (enableEffect apInit "distortion").enabledEffects ∧
     ("distortion" : String) ∈ availableEffectNames ∧
     rebuildApplications
        (enableEffect (disableEffect (enableEffect apInit "distortion") "distortion")
          "distortion") =
       rebuildApplications (enableEffect apInit "distortion")) := by
  refine ⟨by decide, by decide, ?_⟩
  exact reenable_applies_same_parameters (enableEffect apInit "distortion") "distortion"
    (by decide) (by decide)

/-! ## Theorems about the parameter store and DSP formulas -/

/-- C5: for every effect name, parameter name, and value, if the effect or
parameter is unknown to the store, or the value is outside the declared
`[min, max]` range, or the value is non-finite, then `setParameter` returns
`false` and the stored parameter values are unchanged. -/
theorem setParameter_rejects_invalid (s : PStoreState) (effectName parameterName : String)
    (value : JSNum) (sendSuccess : Bool)
    (h : getParameterDefinitionOf effectName parameterName = none ∨
         (∃ pd, getParameterDefinitionOf effectName parameterName = some pd ∧
            (value.geQ pd.min = false ∨ value.leQ pd.max = false)) ∨
         value.isFinite = false) :
    setParameter s effectName parameterName value sendSuccess = (false, s) := by
  have hv : isValidParameter effectName parameterName value = false := by
    unfold isValidParameter
    rcases h with h | ⟨pd, hpd, hcmp⟩ | h
    · rw [h]
    · rw [hpd]
      rcases hcmp with h2 | h2 <;> simp [h2]
    · cases hdef : getParameterDefinitionOf effectName parameterName with
      | none => rfl
      | some pd => simp [h]
  unfold setParameter
  rw [if_pos hv]

theorem setParameter_rejects_invalid_witness :
    ((getParameterDefinitionOf "distortion" "amount" = none ∨
      (∃ pd, getParameterDefinitionOf "distortion" "amount" = some pd ∧
        ((JSNum.num 200).geQ pd.min = false ∨ (JSNum.num 200).leQ pd.max = false)) ∨
      (JSNum.num 200).isFinite = false) ∧
    setParameter ⟨[("distortion", [("amount", 30)])]⟩ "distortion" "amount"
      (JSNum.num 200) true = (false, ⟨[("distortion", [("amount", 30)])]⟩)) := by
  refine ⟨Or.inr (Or.inl ⟨⟨"amount", "Distortion Amount", 30, 0, 100, some 1, some "%"⟩,
    by decide, Or.inr (by decide)⟩), ?_⟩
  exact setParameter_rejects_invalid _ _ _ _ _
    (Or.inr (Or.inl ⟨⟨"amount", "Distortion Amount", 30, 0, 100, some 1, some "%"⟩,
      by decide, Or.inr (by decide)⟩))

/-- C10: `getParameter` is total (never throws, always returns a number), the
read leaves the store unchanged, and an unknown effect or an absent parameter
yields the default `0`. -/
theorem getParameter_default_and_pure (s : PStoreState) (effectName parameterName : String) :
    (getParameterM s effectName parameterName).2 = s ∧
    ((alookup s.parameters effectName = none ∨
      ∃ ps, alookup s.parameters effectName = some ps ∧ alookup ps parameterName = none) →
      (getParameterM s effectName parameterName).1 = 0) := by
  unfold getParameterM
  cases h1 : alookup s.parameters effectName with
  | none => exact ⟨rfl, fun _ => rfl⟩
  | some ps =>
    cases h2 : alookup ps parameterName with
    | none => exact ⟨by simp [h2], fun _ => by simp [h2]⟩
    | some v =>
      refine ⟨by simp [h2], ?_⟩
      rintro (h | ⟨ps2, hps2, hp2⟩)
      · cases h
      · obtain rfl : ps = ps2 := by injection hps2
        rw [h2] at hp2
        cases hp2

theorem getParameter_default_and_pure_witness :
    ((getParameterM (⟨[("distortion", [("amount", 30)])]⟩ : PStoreState) "flanger" "depth").2 =
        (⟨[("distortion", [("amount", 30)])]⟩ : PStoreState) ∧
     (alookup (⟨[("distortion", [("amount", 30)])]⟩ : PStoreState).parameters "flanger" = none ∨
      ∃ ps, alookup (⟨[("distortion", [("amount", 30)])]⟩ : PStoreState).parameters "flanger" =
        some ps ∧ alookup ps "depth" = none) ∧
     (getParameterM (⟨[("distortion", [("amount", 30)])]⟩ : PStoreState) "flanger" "depth").1 = 0) := by
  refine ⟨(getParameter_default_and_pure _ "flanger" "depth").1, Or.inl (by decide), ?_⟩
  exact (getParameter_default_and_pure _ "flanger" "depth").2 (Or.inl (by decide))

/-- C2, counterexample: the code selects the bank index with `Math.floor`, not
`round`; at `roomSize = 50` the code picks index 9 while the claimed formula
`round((50/100)·19)` gives 10. -/
theorem reverbRoomSizeIndex_ne_round_at_50 :
    reverbRoomSizeIndex 50 = 9 ∧ specRoundRoomIndex 50 = 10 ∧
    reverbRoomSizeIndex 50 ≠ specRoundRoomIndex 50 := by
  have hlen : impulseResponseBank.length = 20 := by
    simp only [impulseResponseBank, List.length_map, List.length_range]
  have h1 : reverbRoomSizeIndex 50 = 9 := by
    simp only [reverbRoomSizeIndex, hlen]
    norm_num
    decide
  have h2 : specRoundRoomIndex 50 = 10 := by
    simp only [specRoundRoomIndex]
    norm_num [round_eq]
    decide
  exact ⟨h1, h2, by rw [h1, h2]; decide⟩

/-- C2, amended: the impulse-response bank has N = 20 entries and, for every
`roomSize` value `v` in `[0, 100]`, updating the reverb `roomSize` parameter
selects bank index `floor((v/100)·(N-1))` clamped to `[0, N-1]`; `v = 0`
selects index 0, `v = 100` selects index `N-1`, and the selected index is
monotonically non-decreasing in `v`. -/
theorem reverbRoomSizeIndex_floor_spec :
    impulseResponseBank.length = 20 ∧
    (∀ v : ℚ, 0 ≤ v → v ≤ 100 →
      reverbRoomSizeIndex v = (Int.floor (v / 100 * 19)).toNat) ∧
    reverbRoomSizeIndex 0 = 0 ∧ reverbRoomSizeIndex 100 = 19 ∧
    (∀ v w : ℚ, 0 ≤ v → v ≤ w → w ≤ 100 →
      reverbRoomSizeIndex v ≤ reverbRoomSizeIndex w) := by
  have hlen : impulseResponseBank.length = 20 := by
    simp only [impulseResponseBank, List.length_map, List.length_range]
  have key : ∀ v : ℚ, 0 ≤ v → v ≤ 100 →
      reverbRoomSizeIndex v = (Int.floor (v / 100 * 19)).toNat := by
    intro v h0 h100
    simp only [reverbRoomSizeIndex, hlen]
    norm_num
    have harg0 : (0 : ℚ) ≤ v / 100 * 19 := by positivity
    have harg19 : v / 100 * 19 ≤ 19 := by
      have : v / 100 ≤ 1 := by linarith
      nlinarith
    have hf0 : (0 : ℤ) ≤ Int.floor (v / 100 * 19) := by
      exact Int.le_floor.mpr (by exact_mod_cast harg0)
    have hf19 : Int.floor (v / 100 * 19) ≤ 19 := by
      calc Int.floor (v / 100 * 19) ≤ Int.floor (19 : ℚ) := Int.floor_le_floor harg19
      _ = 19 := by norm_num
    rw [min_eq_left hf19, max_eq_right hf0]
  refine ⟨hlen, key, ?_, ?_, ?_⟩
  · rw [key 0 (by norm_num) (by norm_num)]
    norm_num
  · rw [key 100 (by norm_num) (by norm_num)]
    rw [show ((100 : ℚ) / 100 * 19) = 19 by norm_num]
    norm_num
    decide
  · intro v w h0 hvw h100
    simp only [reverbRoomSizeIndex, hlen]
    apply Int.toNat_le_toNat
    apply max_le_max le_rfl
    apply min_le_min _ le_rfl
    apply Int.floor_le_floor
    push_cast
    linarith

theorem reverbRoomSizeIndex_floor_spec_witness :
    ((0 : ℚ) ≤ 25 ∧ (25 : ℚ) ≤ 100 ∧
     reverbRoomSizeIndex 25 = (Int.floor ((25 : ℚ) / 100 * 19)).toNat ∧
     (0 : ℚ) ≤ 30 ∧ (30 : ℚ) ≤ 70 ∧ (70 : ℚ) ≤ 100 ∧
     reverbRoomSizeIndex 30 ≤ reverbRoomSizeIndex 70) := by
  refine ⟨by norm_num, by norm_num, ?_, by norm_num, by norm_num, by norm_num, ?_⟩
  · exact reverbRoomSizeIndex_floor_spec.2.1 25 (by norm_num) (by norm_num)
  · exact reverbRoomSizeIndex_floor_spec.2.2.2.2 30 70 (by norm_num) (by norm_num) (by norm_num)

/-- C9: for every amount, the generated distortion curve has 44100 samples with
`x = (i·2)/44100 − 1` at index `i`; for `amount = 0` it is the identity curve
`curve[i] = x`, and for `amount ≠ 0` it is
`curve[i] = ((3+amount)·x·20·(π/180)) / (π + amount·|x|)`. -/
theorem createDistortionCurve_spec (amount : ℝ) :
    (createDistortionCurve amount).length = 44100 ∧
    ∀ i, i < 44100 →
      (createDistortionCurve amount).getD i 0 =
        (if amount = 0 then (i : ℝ) * 2 / 44100 - 1
         else ((3 + amount) * ((i : ℝ) * 2 / 44100 - 1) * 20 * (Real.pi / 180)) /
              (Real.pi + amount * |(i : ℝ) * 2 / 44100 - 1|)) := by
  constructor
  · unfold createDistortionCurve
    split <;> simp
  · intro i hi
    unfold createDistortionCurve
    by_cases h : amount = 0
    · rw [if_pos h, if_pos h, List.getD_eq_getElem?_getD]
      simp [List.getElem?_range, hi]
    · rw [if_neg h, if_neg h, List.getD_eq_getElem?_getD]
      simp [List.getElem?_range, hi]

theorem createDistortionCurve_spec_witness :
    ((createDistortionCurve 400).length = 44100 ∧ (3 : ℕ) < 44100 ∧
     (createDistortionCurve 400).getD 3 0 =
       (if (400 : ℝ) = 0 then ((3 : ℕ) : ℝ) * 2 / 44100 - 1
        else ((3 + 400) * (((3 : ℕ) : ℝ) * 2 / 44100 - 1) * 20 * (Real.pi / 180)) /
             (Real.pi + 400 * |((3 : ℕ) : ℝ) * 2 / 44100 - 1|))) := by
  exact ⟨(createDistortionCurve_spec 400).1, by norm_num,
    (createDistortionCurve_spec 400).2 3 (by norm_num)⟩

theorem getMidiKey_note_ne_control (a b c d : ℕ) :
    getMidiKey "note" a b ≠ getMidiKey "control" c d := by
  intro h
  have hd := congrArg String.data h
  simp only [getMidiKey, String.data_append] at hd
  simp [List.append_assoc] at hd

theorem getMidiKey_unknown_ne_note (a b c d : ℕ) :
    getMidiKey "unknown" a b ≠ getMidiKey "note" c d := by
  intro h
  have hd := congrArg String.data h
  simp only [getMidiKey, String.data_append] at hd
  simp [List.append_assoc] at hd

theorem getMidiKey_unknown_ne_control (a b c d : ℕ) :
    getMidiKey "unknown" a b ≠ getMidiKey "control" c d := by
  intro h
  have hd := congrArg String.data h
  simp only [getMidiKey, String.data_append] at hd
  simp [List.append_assoc] at hd

theorem mem_checkMidiMappings {table : List (String × List MidiMapping)}
    {t : String} {status data1 data2 : ℕ} {m : MidiMapping} {v : ℕ} :
    (m, v) ∈ checkMidiMappings table t status data1 data2 ↔
      m ∈ (alookup table (getMidiKey t ((status &&& 0x0f) + 1) data1)).getD [] ∧
      noteSkip m status data2 = false ∧ v = triggerValue m data2 := by
  unfold checkMidiMappings
  rw [List.mem_filterMap]
  constructor
  · rintro ⟨a, ha, hf⟩
    by_cases hs : noteSkip a status data2 = true
    · rw [if_pos hs] at hf
      cases hf
    · rw [if_neg hs] at hf
      have h1 := Option.some.inj hf
      obtain ⟨rfl, rfl⟩ : a = m ∧ triggerValue a data2 = v :=
        ⟨congrArg Prod.fst h1, congrArg Prod.snd h1⟩
      exact ⟨ha, by simpa using hs, rfl⟩
  · rintro ⟨hm, hs, rfl⟩
    exact ⟨m, hm, by simp [hs]⟩

theorem alookup_eq_some_mem {α : Type} {m : List (String × α)} {k : String} {v : α}
    (h : alookup m k = some v) : (k, v) ∈ m := by
  unfold alookup at h
  obtain ⟨p, hp, hpv⟩ := Option.map_eq_some'.mp h
  have hmem := List.mem_of_find?_eq_some hp
  have hkey : p.1 = k := by simpa using List.find?_some hp
  have : p = (k, v) := by
    cases p
    simp only at hkey hpv
    rw [hkey, hpv]
  rw [this] at hmem
  exact hmem

/-- A mapping found in a well-formed table under a bucket determines the
bucket's key from its own MIDI type, channel and note/CC value. -/
theorem table_mapping_key {table : List (String × List MidiMapping)}
    (hWF : WellFormedTable table) {k : String} {bucket : List MidiMapping}
    {m : MidiMapping} (hk : alookup table k = some bucket) (hm : m ∈ bucket) :
    (m.midiType = "note" ∧ ∃ v, m.midiNote = some v ∧
       k = getMidiKey "note" m.midiChannel v) ∨
    (m.midiType = "control" ∧ ∃ v, m.midiCC = some v ∧
       k = getMidiKey "control" m.midiChannel v) :=
  hWF (k, bucket) (alookup_eq_some_mem hk) m hm

theorem dispatched_note_type {table : List (String × List MidiMapping)}
    (hWF : WellFormedTable table) {t : String} {status data1 data2 : ℕ}
    {m : MidiMapping} {v : ℕ}
    (ht : t = "note" ∨ t = "control" ∨ t = "unknown")
    (hmem : (m, v) ∈ checkMidiMappings table t status data1 data2) :
    m.midiType = t := by
  obtain ⟨hb, _, _⟩ := mem_checkMidiMappings.mp hmem
  cases hk : alookup table (getMidiKey t ((status &&& 0x0f) + 1) data1) with
  | none => rw [hk] at hb; cases hb
  | some bucket =>
    rw [hk] at hb
    simp only [Option.getD_some] at hb
    rcases table_mapping_key hWF hk hb with ⟨hmt, w, _, hkey⟩ | ⟨hmt, w, _, hkey⟩ <;>
      rcases ht with rfl | rfl | rfl
    · exact hmt
    · exact absurd hkey.symm (getMidiKey_note_ne_control _ _ _ _)
    · exact absurd hkey (getMidiKey_unknown_ne_note _ _ _ _)
    · exact absurd hkey (getMidiKey_note_ne_control _ _ _ _)
    · exact hmt
    · exact absurd hkey (getMidiKey_unknown_ne_control _ _ _ _)

/-- C3: for every incoming MIDI message matching a stored mapping in a
well-formed table — toggle mapping on a Control Change dispatches 0 when the
scaled value `round(data2/127·100)` is below 50 and 1 otherwise; toggle
mapping on a note message dispatches 0 for velocity below 64 and 1 otherwise;
parameter mapping dispatches `round(data2/127·100)`. -/
theorem dispatch_value_formulas (table : List (String × List MidiMapping))
    (hWF : WellFormedTable table) (status data1 data2 : ℕ) (m : MidiMapping) (v : ℕ)
    (hmem : (m, v) ∈ handleDispatches table status data1 data2) :
    (status &&& 0xf0 = 0xb0 →
      (m.type = "effect-toggle" →
        v = if (round ((data2 : ℚ) / 127 * 100)).toNat < 50 then 0 else 1) ∧
      (m.type = "effect-parameter" →
        v = (round ((data2 : ℚ) / 127 * 100)).toNat)) ∧
    ((status &&& 0xf0 = 0x90 ∨ status &&& 0xf0 = 0x80) →
      (m.type = "effect-toggle" → v = if data2 < 64 then 0 else 1) ∧
      (m.type = "effect-parameter" →
        v = (round ((data2 : ℚ) / 127 * 100)).toNat)) := by
  constructor
  · intro hb
    simp only [handleDispatches, parseMidiMessage, hb] at hmem
    norm_num at hmem
    have hmt : m.midiType = "control" :=
      dispatched_note_type hWF (Or.inr (Or.inl rfl)) hmem
    obtain ⟨_, _, rfl⟩ := mem_checkMidiMappings.mp hmem
    have hne : (m.midiType == "note") = false := by simp [hmt]
    constructor
    · intro htog
      simp [triggerValue, hne, htog, scaledMidiValue]
    · intro hpar
      have htog : (m.type == "effect-toggle") = false := by simp [hpar]
      simp [triggerValue, hne, htog, scaledMidiValue]
  · intro hb
    have hredux : (m, v) ∈ checkMidiMappings table "note" status data1 data2 := by
      rcases hb with hb | hb <;>
        · simp only [handleDispatches, parseMidiMessage, hb] at hmem
          norm_num at hmem
          exact hmem
    have hmt : m.midiType = "note" :=
      dispatched_note_type hWF (Or.inl rfl) hredux
    obtain ⟨_, _, rfl⟩ := mem_checkMidiMappings.mp hredux
    have hn : (m.midiType == "note") = true := by simp [hmt]
    constructor
    · intro htog
      simp [triggerValue, hn, htog]
    · intro hpar
      have htog : (m.type == "effect-toggle") = false := by simp [hpar]
      simp [triggerValue, hn, htog, scaledMidiValue]

theorem dispatch_value_formulas_witness :
    (WellFormedTable mixCCTable ∧
     (mixCCMapping, (64 : ℕ)) ∈ handleDispatches mixCCTable 0xb0 7 81 ∧
     ((64 : ℕ) = (round ((81 : ℚ) / 127 * 100)).toNat)) := by
  have hWF : WellFormedTable mixCCTable := by
    intro p hp m hm
    simp only [mixCCTable, List.mem_singleton] at hp
    subst hp
    simp only [mixCCMapping, List.mem_singleton] at hm
    subst hm
    exact Or.inr ⟨rfl, 7, rfl, rfl⟩
  have hscaled : (round ((81 : ℚ) / 127 * 100)).toNat = 64 := by
    norm_num [round_eq]
    decide
  have hmem : (mixCCMapping, (64 : ℕ)) ∈ handleDispatches mixCCTable 0xb0 7 81 := by
    simp only [handleDispatches, parseMidiMessage]
    rw [show (176 &&& 240 : ℕ) = 176 from rfl]
    norm_num
    rw [mem_checkMidiMappings]
    refine ⟨?_, by simp [noteSkip, mixCCMapping], ?_⟩
    · rw [show ((0xb0 : ℕ) &&& 0x0f) + 1 = 1 from rfl]
      simp [mixCCTable, alookup, List.find?]
    · simp [triggerValue, scaledMidiValue, mixCCMapping, hscaled]
  have h := (dispatch_value_formulas _ hWF 0xb0 7 81 _ 64 hmem).1 rfl
  exact ⟨hWF, hmem, h.2 (by simp [mixCCMapping])⟩

/-- C8: for every note-type mapping, a Note-Off message or a Note-On message
with velocity 0 on the mapping's MIDI key never invokes the mapping-triggered
callback; in a well-formed table, only a Note-On with velocity greater than 0
triggers a note mapping, and such a message does trigger every note mapping
stored under its key. -/
theorem note_mapping_trigger_rules (table : List (String × List MidiMapping))
    (hWF : WellFormedTable table) (status data1 data2 : ℕ) :
    (∀ m v, m.midiType = "note" →
       (status &&& 0xf0 = 0x80 ∨ (status &&& 0xf0 = 0x90 ∧ data2 = 0)) →
       (m, v) ∉ handleDispatches table status data1 data2) ∧
    (∀ m v, m.midiType = "note" →
       (m, v) ∈ handleDispatches table status data1 data2 →
       status &&& 0xf0 = 0x90 ∧ 0 < data2) ∧
    (∀ m bucket, alookup table (getMidiKey "note" ((status &&& 0x0f) + 1) data1) = some bucket →
       m ∈ bucket → status &&& 0xf0 = 0x90 → 0 < data2 →
       (m, triggerValue m data2) ∈ handleDispatches table status data1 data2) := by
  refine ⟨?_, ?_, ?_⟩
  · rintro m v hmt (hoff | ⟨hon, hvel⟩) hmem
    · unfold handleDispatches at hmem
      rcases hp : parseMidiMessage status data1 data2 [status, data1, data2] 0 with _ | act
      · rw [hp] at hmem
        cases hmem
      · rw [hp] at hmem
        obtain ⟨_, hskip, _⟩ := mem_checkMidiMappings.mp hmem
        rw [noteSkip] at hskip
        simp [hmt, hoff] at hskip
    · unfold handleDispatches at hmem
      rcases hp : parseMidiMessage status data1 data2 [status, data1, data2] 0 with _ | act
      · rw [hp] at hmem
        cases hmem
      · rw [hp] at hmem
        obtain ⟨_, hskip, _⟩ := mem_checkMidiMappings.mp hmem
        rw [noteSkip] at hskip
        simp [hmt, hon, hvel] at hskip
  · intro m v hmt hmem
    unfold handleDispatches at hmem
    rcases hp : parseMidiMessage status data1 data2 [status, data1, data2] 0 with _ | act
    · rw [hp] at hmem
      cases hmem
    · rw [hp] at hmem
      have htype : act.type = "note" ∨ act.type = "control" ∨ act.type = "unknown" := by
        unfold parseMidiMessage at hp
        split_ifs at hp <;> (try cases hp) <;> simp
      have hmtype : m.midiType = act.type := dispatched_note_type hWF htype hmem
      have hact : act.type = "note" := by rw [← hmtype, hmt]
      have hnib : status &&& 0xf0 = 0x90 ∨ status &&& 0xf0 = 0x80 := by
        unfold parseMidiMessage at hp
        split_ifs at hp with h1 h2 h3 h4 h5
        · exact Or.inl h1
        · exact Or.inr h2
        · injection hp with h
          rw [← h] at hact
          simp at hact
        · injection hp with h
          rw [← h] at hact
          simp at hact
        · injection hp with h
          rw [← h] at hact
          simp at hact
      obtain ⟨_, hskip, _⟩ := mem_checkMidiMappings.mp hmem
      rw [noteSkip] at hskip
      rcases hnib with hnib | hnib
      · refine ⟨hnib, ?_⟩
        rcases Nat.eq_zero_or_pos data2 with rfl | hpos
        · simp [hmt, hnib] at hskip
        · exact hpos
      · simp [hmt, hnib] at hskip
  · intro m bucket hk hm h90 hvel
    unfold handleDispatches
    have hp : parseMidiMessage status data1 data2 [status, data1, data2] 0 =
        some { type := "note", message := getNoteNameFromNumber data1,
               timestamp := 0, rawData := [status, data1, data2] } := by
      unfold parseMidiMessage
      rw [h90]
      norm_num
    rw [hp]
    rw [mem_checkMidiMappings]
    refine ⟨?_, ?_, rfl⟩
    · rw [hk]
      simpa using hm
    · rw [noteSkip]
      have hv0 : (data2 == 0) = false := by
        simpa using Nat.pos_iff_ne_zero.mp hvel
      simp [h90, hv0]

theorem note_mapping_trigger_rules_witness :
    (WellFormedTable noteToggleTable ∧
     (∀ v, (noteToggleMapping, v) ∉ handleDispatches noteToggleTable 0x90 60 0) ∧
     (noteToggleMapping, triggerValue noteToggleMapping 100) ∈
       handleDispatches noteToggleTable 0x90 60 100 ∧
     triggerValue noteToggleMapping 100 = 1) := by
  have hWF : WellFormedTable noteToggleTable := by
    intro p hp m hm
    simp only [noteToggleTable, List.mem_singleton] at hp
    subst hp
    simp only [noteToggleMapping, List.mem_singleton] at hm
    subst hm
    exact Or.inl ⟨rfl, 60, rfl, rfl⟩
  refine ⟨hWF, ?_, ?_, ?_⟩
  · intro v
    exact (note_mapping_trigger_rules noteToggleTable hWF 0x90 60 0).1
      noteToggleMapping v (by simp [noteToggleMapping]) (Or.inr ⟨rfl, rfl⟩)
  · refine (note_mapping_trigger_rules noteToggleTable hWF 0x90 60 100).2.2
      noteToggleMapping [noteToggleMapping] ?_ (by simp) rfl (by norm_num)
    rw [show ((0x90 : ℕ) &&& 0x0f) + 1 = 1 from rfl]
    simp [noteToggleTable, alookup, List.find?]
  · rw [triggerValue]
    simp [noteToggleMapping]

theorem updateMidiListening_shape (env : MidiEnv) (s : MidiState) :
    ∃ ls, updateMidiListening env s = { s with listeners := ls } := by
  obtain ⟨ma, ic, cd, il, ilk, la, mm, ls⟩ := s
  unfold updateMidiListening
  cases cd with
  | none => exact ⟨ls, rfl⟩
  | some d =>
    simp only
    split_ifs <;> exact ⟨_, rfl⟩

theorem updateLinkedState_shape (env : MidiEnv) (s : MidiState) :
    ∃ b ls, updateLinkedState env s = { s with isLinked := b, listeners := ls } := by
  unfold updateLinkedState
  by_cases h : s.isLinked = !s.midiMappings.isEmpty
  · rw [if_pos h]
    exact ⟨_, s.listeners, rfl⟩
  · rw [if_neg h]
    obtain ⟨ls, hls⟩ :=
      updateMidiListening_shape env { s with isLinked := !s.midiMappings.isEmpty }
    rw [hls]
    exact ⟨_, ls, rfl⟩

theorem updateLinkedState_midiMappings (env : MidiEnv) (s : MidiState) :
    (updateLinkedState env s).midiMappings = s.midiMappings := by
  obtain ⟨b, ls, h⟩ := updateLinkedState_shape env s
  rw [h]

theorem updateLinkedState_lastActivity (env : MidiEnv) (s : MidiState) :
    (updateLinkedState env s).lastActivity = s.lastActivity := by
  obtain ⟨b, ls, h⟩ := updateLinkedState_shape env s
  rw [h]

theorem mappingExists_addMapping_self (table : List (String × List MidiMapping))
    (targetId ty : String) (channel data1 : ℕ) (p0 p1 eff : String)
    (restParts : List String) (hty : ty = "note" ∨ ty = "control") :
    mappingExists (addMapping table (getMidiKey ty channel data1)
        (mkLinkMapping targetId ty channel data1 p0 p1 eff restParts))
      targetId ty channel data1 = true := by
  simp only [mappingExists, addMapping]
  rw [alookup_aset_self]
  rcases hty with rfl | rfl <;> simp [mkLinkMapping]

theorem createMidiLink_eq (env : MidiEnv) (s : MidiState) (targetId : String)
    (activity : MidiActivity) (status data1 : ℕ) (restData : List ℕ)
    (p0 p1 eff : String) (restParts : List String)
    (htype : activity.type = "note" ∨ activity.type = "control")
    (hraw : activity.rawData = status :: data1 :: restData)
    (hstatus : status ≠ 0)
    (hsplit : splitDash targetId = p0 :: p1 :: eff :: restParts)
    (heff : eff ≠ "") :
    createMidiLinkFromActivity env s targetId activity =
      (if mappingExists s.midiMappings targetId activity.type
            ((status &&& 0x0f) + 1) data1 = true
       then (s, [])
       else
         (linkedStateAfter env s targetId activity.type ((status &&& 0x0f) + 1) data1
            p0 p1 eff restParts,
          [mkLinkMapping targetId activity.type ((status &&& 0x0f) + 1) data1
            p0 p1 eff restParts])) := by
  unfold createMidiLinkFromActivity
  have hc1 : ¬ (activity.type ≠ "note" ∧ activity.type ≠ "control") := by
    rcases htype with h | h <;> simp [h]
  rw [if_neg hc1, hraw]
  simp only [List.getElem?_cons_zero, List.getElem?_cons_succ]
  rw [if_neg hstatus, hsplit]
  simp only [List.length_cons]
  rw [if_neg (by omega)]
  rw [if_neg heff]
  rfl

/-- C6: calling `requestLink` twice with the same last-activity snapshot and
target id creates exactly one mapping — the first call fires one
mapping-created callback, and the second call leaves the state unchanged and
fires none, because the identical mapping already exists. -/
theorem requestLink_idempotent (env : MidiEnv) (s : MidiState) (targetId : String)
    (activity : MidiActivity) (status data1 : ℕ) (restData : List ℕ)
    (p0 p1 eff : String) (restParts : List String)
    (hact : s.lastActivity = some activity)
    (htype : activity.type = "note" ∨ activity.type = "control")
    (hraw : activity.rawData = status :: data1 :: restData)
    (hstatus : status ≠ 0)
    (hsplit : splitDash targetId = p0 :: p1 :: eff :: restParts)
    (heff : eff ≠ "")
    (hnew : mappingExists s.midiMappings targetId activity.type
        ((status &&& 0x0f) + 1) data1 = false) :
    (requestMidiLink env s targetId).2.length = 1 ∧
    requestMidiLink env (requestMidiLink env s targetId).1 targetId =
      ((requestMidiLink env s targetId).1, []) := by
  have hkey := createMidiLink_eq env s targetId activity status data1 restData
    p0 p1 eff restParts htype hraw hstatus hsplit heff
  have hr1 : requestMidiLink env s targetId =
      (linkedStateAfter env s targetId activity.type ((status &&& 0x0f) + 1) data1
         p0 p1 eff restParts,
       [mkLinkMapping targetId activity.type ((status &&& 0x0f) + 1) data1
         p0 p1 eff restParts]) := by
    unfold requestMidiLink
    rw [hact]
    show createMidiLinkFromActivity env s targetId activity = _
    rw [hkey, if_neg (by rw [hnew]; exact Bool.false_ne_true)]
  have hact2 : (requestMidiLink env s targetId).1.lastActivity = some activity := by
    rw [hr1]
    show (linkedStateAfter env s targetId activity.type ((status &&& 0x0f) + 1) data1
      p0 p1 eff restParts).lastActivity = some activity
    rw [linkedStateAfter, updateLinkedState_lastActivity]
    exact hact
  have hmm2 : (requestMidiLink env s targetId).1.midiMappings =
      addMapping s.midiMappings
        (getMidiKey activity.type ((status &&& 0x0f) + 1) data1)
        (mkLinkMapping targetId activity.type ((status &&& 0x0f) + 1) data1
          p0 p1 eff restParts) := by
    rw [hr1]
    show (linkedStateAfter env s targetId activity.type ((status &&& 0x0f) + 1) data1
      p0 p1 eff restParts).midiMappings = _
    rw [linkedStateAfter, updateLinkedState_midiMappings]
  have hex : mappingExists (requestMidiLink env s targetId).1.midiMappings targetId
      activity.type ((status &&& 0x0f) + 1) data1 = true := by
    rw [hmm2]
    exact mappingExists_addMapping_self s.midiMappings targetId activity.type
      ((status &&& 0x0f) + 1) data1 p0 p1 eff restParts htype
  constructor
  · rw [hr1]
    rfl
  · generalize hX : (requestMidiLink env s targetId).1 = X at hact2 hex ⊢
    unfold requestMidiLink
    rw [hact2]
    show createMidiLinkFromActivity env X targetId activity = _
    rw [createMidiLink_eq env X targetId activity status data1 restData
      p0 p1 eff restParts htype hraw hstatus hsplit heff, if_pos hex]

theorem requestLink_idempotent_witness :
    (c6State.lastActivity = some c6Activity ∧
     (c6Activity.type = "note" ∨ c6Activity.type = "control") ∧
     c6Activity.rawData = 144 :: 60 :: [100] ∧
     (144 : ℕ) ≠ 0 ∧
     splitDash "effect-toggle-distortion" = "effect" :: "toggle" :: "distortion" :: [] ∧
     ("distortion" : String) ≠ "" ∧
     mappingExists c6State.midiMappings "effect-toggle-distortion" c6Activity.type
       ((144 &&& 0x0f) + 1) 60 = false ∧
     (requestMidiLink c6Env c6State "effect-toggle-distortion").2.length = 1 ∧
     requestMidiLink c6Env (requestMidiLink c6Env c6State "effect-toggle-distortion").1
         "effect-toggle-distortion" =
       ((requestMidiLink c6Env c6State "effect-toggle-distortion").1, [])) := by
  have h := requestLink_idempotent c6Env c6State "effect-toggle-distortion" c6Activity
    144 60 [100] "effect" "toggle" "distortion" [] rfl (Or.inl rfl) rfl (by decide)
    (by decide) (by decide) (by decide)
  exact ⟨rfl, Or.inl rfl, rfl, by decide, by decide, by decide, by decide, h.1, h.2⟩

/-! ## C4: the learning/linked listening invariant -/

theorem aset_forall_values {α : Type} (P : α → Prop) (t : List (String × α))
    (k : String) (v : α) (h : ∀ p ∈ t, P p.2) (hv : P v) :
    ∀ p ∈ aset t k v, P p.2 := by
  intro p hp
  unfold aset at hp
  by_cases hf : (t.find? (fun q => q.1 == k)).isSome = true
  · rw [if_pos hf] at hp
    obtain ⟨q, hq, hqe⟩ := List.mem_map.mp hp
    by_cases hqk : (q.1 == k) = true
    · rw [if_pos hqk] at hqe
      rw [← hqe]
      exact hv
    · rw [if_neg hqk] at hqe
      rw [← hqe]
      exact h q hq
  · rw [if_neg hf] at hp
    rcases List.mem_append.mp hp with hp | hp
    · exact h p hp
    · rw [List.mem_singleton.mp hp]
      exact hv

theorem adelete_forall_values {α : Type} (P : α → Prop) (t : List (String × α))
    (k : String) (h : ∀ p ∈ t, P p.2) :
    ∀ p ∈ adelete t k, P p.2 := by
  intro p hp
  exact h p (List.mem_of_mem_filter hp)

theorem addMapping_buckets (t : List (String × List MidiMapping)) (k : String)
    (m : MidiMapping) (h : ∀ p ∈ t, p.2 ≠ []) :
    ∀ p ∈ addMapping t k m, p.2 ≠ [] := by
  unfold addMapping
  exact aset_forall_values (fun l => l ≠ []) t k _ h (by simp)

theorem restoreOne_buckets (t : List (String × List MidiMapping)) (m : MidiMapping)
    (h : ∀ p ∈ t, p.2 ≠ []) : ∀ p ∈ restoreOne t m, p.2 ≠ [] := by
  unfold restoreOne
  split
  · exact h
  · split
    · exact h
    · exact addMapping_buckets t _ m h

theorem foldl_restoreOne_buckets (stored : List MidiMapping)
    (t : List (String × List MidiMapping)) (h : ∀ p ∈ t, p.2 ≠ []) :
    ∀ p ∈ stored.foldl restoreOne t, p.2 ≠ [] := by
  induction stored generalizing t with
  | nil => exact h
  | cons m rest ih =>
    simp only [List.foldl_cons]
    exact ih _ (restoreOne_buckets t m h)

theorem updateMidiListening_not_connected (env : MidiEnv) (s : MidiState)
    (h : s.isConnected = false) : updateMidiListening env s = s := by
  unfold updateMidiListening
  split
  · rw [if_neg (by simp [h])]
  · rfl

theorem updateMidiListening_connected (env : MidiEnv) (s : MidiState) (d : String)
    (hic : s.isConnected = true) (hma : s.midiAccess = true)
    (hcd : s.connectedDeviceId = some d) (hin : d ∈ env.inputs)
    (hls : s.listeners = [] ∨ s.listeners = [d]) :
    updateMidiListening env s =
      { s with listeners :=
          if s.isLearning = true ∨ s.isLinked = true then [d] else [] } := by
  unfold updateMidiListening
  split
  · rename_i d2 heq
    obtain rfl : d2 = d := by
      rw [hcd] at heq
      exact (Option.some.inj heq).symm
    rw [if_pos ⟨hic, hma⟩, if_pos hin]
    by_cases hcond : s.isLearning = true ∨ s.isLinked = true
    · rw [if_pos hcond, if_pos hcond]
      congr 1
      rcases hls with h | h <;> simp [attachListener, h]
    · rw [if_neg hcond, if_neg hcond]
      congr 1
      rcases hls with h | h <;> simp [detachListener, h]
  · rename_i heq
    rw [hcd] at heq
    cases heq

theorem disconnect_clean (env : MidiEnv) (s : MidiState) (hInv : MidiInv env s) :
    disconnect env s =
      { midiAccess := s.midiAccess, isConnected := false, connectedDeviceId := none,
        isLearning := false, isLinked := false, lastActivity := none,
        midiMappings := [], listeners := [] } := by
  obtain ⟨h1, h2, h3, h4, h5⟩ := hInv
  unfold disconnect
  have hls : (match s.connectedDeviceId with
      | some d => if s.midiAccess ∧ d ∈ env.inputs then detachListener s.listeners d
                  else s.listeners
      | none => s.listeners) = [] := by
    split
    · rename_i d2 heq
      by_cases hic : s.isConnected = true
      · obtain ⟨hma, d, hcd, hin⟩ := h4 hic
        obtain rfl : d2 = d := by
          rw [hcd] at heq
          exact (Option.some.inj heq).symm
        rw [if_pos ⟨hma, hin⟩, h3]
        by_cases hflag : s.isConnected = true ∧ (s.isLearning = true ∨ s.isLinked = true)
        · rw [if_pos hflag, hcd]
          simp [detachListener]
        · rw [if_neg hflag]
          simp [detachListener]
      · have hic2 : s.isConnected = false := by
          cases hb : s.isConnected
          · rfl
          · exact absurd hb hic
        obtain ⟨hcd, _, _⟩ := h5 hic2
        rw [hcd] at heq
        cases heq
    · by_cases hic : s.isConnected = true
      · rename_i heq
        obtain ⟨hma, d, hcd, hin⟩ := h4 hic
        rw [hcd] at heq
        cases heq
      · have hic2 : s.isConnected = false := by
          cases hb : s.isConnected
          · rfl
          · exact absurd hb hic
        rw [h3, if_neg (by rw [hic2]; simp)]
  rw [hls]
  have hstep : updateLinkedState env
      { s with listeners := [], isConnected := false, isLearning := false,
               lastActivity := none, midiMappings := [] } =
      { s with listeners := [], isConnected := false, isLearning := false,
               lastActivity := none, midiMappings := [], isLinked := false } := by
    unfold updateLinkedState
    by_cases hlk : s.isLinked = false
    · rw [if_pos (by simp [hlk])]
      rfl
    · rw [if_neg (by simp only [List.isEmpty_nil, Bool.not_true]; intro hx; exact hlk hx)]
      rw [updateMidiListening_not_connected env _ rfl]
      rfl
  simp only [hstep]

theorem midiInv_clean (env : MidiEnv) (ma : Bool) :
    MidiInv env
      { midiAccess := ma, isConnected := false, connectedDeviceId := none,
        isLearning := false, isLinked := false, lastActivity := none,
        midiMappings := [], listeners := [] } := by
  refine ⟨rfl, by simp, rfl, ?_, fun _ => ⟨rfl, rfl, rfl⟩⟩
  intro h
  cases h

theorem midiInv_disconnect (env : MidiEnv) (s : MidiState) (hInv : MidiInv env s) :
    MidiInv env (disconnect env s) := by
  rw [disconnect_clean env s hInv]
  exact midiInv_clean env s.midiAccess

theorem updateLinkedState_good (env : MidiEnv) (s : MidiState) (d : String)
    (hic : s.isConnected = true) (hma : s.midiAccess = true)
    (hcd : s.connectedDeviceId = some d) (hin : d ∈ env.inputs)
    (hls : s.listeners = if s.isLearning = true ∨ s.isLinked = true then [d] else []) :
    updateLinkedState env s =
      { s with isLinked := !s.midiMappings.isEmpty,
               listeners := if s.isLearning = true ∨ (!s.midiMappings.isEmpty) = true
                            then [d] else [] } := by
  obtain ⟨ma, ic, cd, il, ilk, la, mm, ls⟩ := s
  simp only at hic hma hcd hls ⊢
  subst hic hma hcd
  unfold updateLinkedState
  by_cases hsame : ilk = !mm.isEmpty
  · rw [if_pos (show ilk = !mm.isEmpty from hsame)]
    rw [← hsame, ← hls]
  · rw [if_neg (show ¬ ilk = !mm.isEmpty from hsame)]
    rw [updateMidiListening_connected env _ d rfl rfl rfl hin
      (by rw [hls]; split_ifs <;> simp)]

theorem midiInv_update_mappings (env : MidiEnv) (s : MidiState)
    (T : List (String × List MidiMapping)) (hInv : MidiInv env s)
    (hic : s.isConnected = true) (hbk : ∀ p ∈ T, p.2 ≠ []) :
    MidiInv env (updateLinkedState env { s with midiMappings := T }) := by
  obtain ⟨h1, h2, h3, h4, h5⟩ := hInv
  obtain ⟨hma, d, hcd, hin⟩ := h4 hic
  obtain ⟨ma, ic, cd, il, ilk, la, mm, ls⟩ := s
  simp only at hic hma hcd h3
  subst hic hma hcd
  have hls : ls = if il = true ∨ ilk = true then [d] else [] := by
    simpa using h3
  rw [updateLinkedState_good env _ d rfl rfl rfl hin (by simpa using hls)]
  refine ⟨rfl, hbk, by simp, fun _ => ⟨rfl, d, rfl, hin⟩, ?_⟩
  intro h
  cases h

theorem isConn_false_of_not_true {s : MidiState} (h : ¬ s.isConnected = true) :
    s.isConnected = false := by
  cases hb : s.isConnected
  · rfl
  · exact absurd hb h

theorem midiInv_setLearning (env : MidiEnv) (s : MidiState) (b : Bool)
    (hInv : MidiInv env s) : MidiInv env (setLearning env s b) := by
  obtain ⟨h1, h2, h3, h4, h5⟩ := hInv
  by_cases hic : s.isConnected = true
  · obtain ⟨hma, d, hcd, hin⟩ := h4 hic
    obtain ⟨ma, ic, cd, il, ilk, la, mm, ls⟩ := s
    simp only at hic hma hcd h3 h1 h2 ⊢
    subst hic hma hcd
    have hls : ls = if il = true ∨ ilk = true then [d] else [] := by simpa using h3
    unfold setLearning
    rw [updateMidiListening_connected env _ d rfl rfl rfl hin
      (by rw [hls]; split_ifs <;> simp)]
    refine ⟨h1, h2, by simp, fun _ => ⟨rfl, d, rfl, hin⟩, ?_⟩
    intro h
    cases h
  · have hic2 : s.isConnected = false := isConn_false_of_not_true hic
    obtain ⟨hcd, hla, hmm⟩ := h5 hic2
    obtain ⟨ma, ic, cd, il, ilk, la, mm, ls⟩ := s
    simp only at hic2 hcd hla hmm h3 h1 ⊢
    subst hic2 hcd hla hmm
    have hls : ls = [] := by simpa using h3
    have hlk : ilk = false := by simpa using h1
    subst hls hlk
    unfold setLearning
    rw [updateMidiListening_not_connected env _ rfl]
    refine ⟨rfl, by simp, by simp, ?_, ?_⟩
    · intro h
      cases h
    · intro _
      exact ⟨rfl, by cases b <;> rfl, rfl⟩

theorem midiInv_connect_s3 (env : MidiEnv) (id : String) (s2 : MidiState)
    (hma : s2.midiAccess = true) (hin : id ∈ env.inputs)
    (hmm : s2.midiMappings = []) (hlk : s2.isLinked = false)
    (hls : s2.listeners = if s2.isLearning = true then [id] else []) :
    MidiInv env { s2 with isConnected := true, connectedDeviceId := some id } := by
  refine ⟨?_, ?_, ?_, fun _ => ⟨hma, id, rfl, hin⟩, fun h => Bool.noConfusion h⟩
  · show s2.isLinked = !s2.midiMappings.isEmpty
    rw [hlk, hmm]
    rfl
  · show ∀ p ∈ s2.midiMappings, p.2 ≠ []
    rw [hmm]
    intro p hp
    cases hp
  · show s2.listeners = if true = true ∧ (s2.isLearning = true ∨ s2.isLinked = true)
      then (some id).toList else []
    rw [hls, hlk]
    by_cases hil : s2.isLearning = true
    · rw [if_pos hil, if_pos ⟨rfl, Or.inl hil⟩]
      rfl
    · rw [if_neg hil, if_neg (by simp [hil])]

theorem midiInv_connect_s3r (env : MidiEnv) (id : String) (s2 : MidiState)
    (cfg : List MidiMapping)
    (hma : s2.midiAccess = true) (hin : id ∈ env.inputs)
    (hmm : s2.midiMappings = []) (hlk : s2.isLinked = false)
    (hls : s2.listeners = if s2.isLearning = true then [id] else []) :
    MidiInv env (restoreMidiMappings env
      { s2 with isConnected := true, connectedDeviceId := some id } cfg) := by
  unfold restoreMidiMappings
  apply midiInv_update_mappings env _ _
    (midiInv_connect_s3 env id s2 hma hin hmm hlk hls) rfl
  apply foldl_restoreOne_buckets
  intro p hp
  have hp2 : p ∈ s2.midiMappings := hp
  rw [hmm] at hp2
  cases hp2

theorem midiInv_connect (env : MidiEnv) (s : MidiState) (id : String)
    (hInv : MidiInv env s) (hma : s.midiAccess = true) (hin : id ∈ env.inputs) :
    MidiInv env (connectToDevice env s id) := by
  have hInv2 := hInv
  obtain ⟨h1, h2, h3, h4, h5⟩ := hInv2
  unfold connectToDevice
  rw [if_neg (by simp [hma]), if_neg (by simp [hin])]
  by_cases hic : s.isConnected = true
  · rw [if_pos hic, disconnect_clean env s hInv]
    cases hcfg : alookup env.configs id with
    | none => exact midiInv_connect_s3 env id _ hma hin rfl rfl (by simp)
    | some cfg => exact midiInv_connect_s3r env id _ cfg hma hin rfl rfl (by simp)
  · rw [if_neg hic]
    have hic2 : s.isConnected = false := isConn_false_of_not_true hic
    obtain ⟨hcd, hla, hmm⟩ := h5 hic2
    have hls : s.listeners = [] := by
      rw [h3, if_neg (by simp [hic2])]
    have hlk : s.isLinked = false := by
      rw [h1, hmm]
      rfl
    obtain ⟨ma, ic, cd, il, ilk, la, mm, ls⟩ := s
    simp only at hma hic2 hcd hla hmm hls hlk
    subst hma hic2 hcd hla hmm hlk
    subst hls
    cases il with
    | false =>
      cases hcfg : alookup env.configs id with
      | none => exact midiInv_connect_s3 env id _ rfl hin rfl rfl (by simp)
      | some cfg => exact midiInv_connect_s3r env id _ cfg rfl hin rfl rfl (by simp)
    | true =>
      cases hcfg : alookup env.configs id with
      | none =>
        exact midiInv_connect_s3 env id _ rfl hin rfl rfl (by simp [attachListener])
      | some cfg =>
        exact midiInv_connect_s3r env id _ cfg rfl hin rfl rfl (by simp [attachListener])

theorem createMidiLink_fst_cases (env : MidiEnv) (s : MidiState) (targetId : String)
    (activity : MidiActivity) :
    (createMidiLinkFromActivity env s targetId activity).1 = s ∨
    ∃ key M, (createMidiLinkFromActivity env s targetId activity).1 =
      updateLinkedState env
        { s with midiMappings := addMapping s.midiMappings key M } := by
  simp only [createMidiLinkFromActivity]
  repeat' first
  | exact Or.inl rfl
  | exact Or.inr ⟨_, _, rfl⟩
  | (exfalso; simp_all; done)
  | split

theorem midiInv_requestLink (env : MidiEnv) (s : MidiState) (targetId : String)
    (hInv : MidiInv env s) : MidiInv env (requestMidiLink env s targetId).1 := by
  unfold requestMidiLink
  cases hla : s.lastActivity with
  | none => exact hInv
  | some act =>
    show MidiInv env (createMidiLinkFromActivity env s targetId act).1
    have hic : s.isConnected = true := by
      by_contra h
      obtain ⟨_, hla2, _⟩ := hInv.2.2.2.2 (isConn_false_of_not_true h)
      rw [hla] at hla2
      cases hla2
    rcases createMidiLink_fst_cases env s targetId act with h | ⟨key, M, h⟩
    · rw [h]
      exact hInv
    · rw [h]
      exact midiInv_update_mappings env s _ hInv hic
        (addMapping_buckets _ _ _ hInv.2.1)

theorem midiInv_removeMapping (env : MidiEnv) (s : MidiState) (mt : String)
    (ch v : ℕ) (hInv : MidiInv env s) :
    MidiInv env (removeSpecificMapping env s mt ch v).1 := by
  simp only [removeSpecificMapping]
  cases hlookup : alookup s.midiMappings (getMidiKey mt ch v) with
  | none => exact hInv
  | some bucket =>
    cases bucket with
    | nil => exact hInv
    | cons head rest =>
      have hic : s.isConnected = true := by
        by_contra h
        obtain ⟨_, _, hmm⟩ := hInv.2.2.2.2 (isConn_false_of_not_true h)
        rw [hmm] at hlookup
        simp [alookup] at hlookup
      show MidiInv env (updateLinkedState env _)
      apply midiInv_update_mappings env s _ hInv hic
      by_cases hre : rest.isEmpty = true
      · rw [if_pos hre]
        exact adelete_forall_values (fun l => l ≠ []) _ _ hInv.2.1
      · rw [if_neg hre]
        exact aset_forall_values (fun l => l ≠ []) _ _ _ hInv.2.1 (by simpa using hre)

theorem midiInv_step (env : MidiEnv) (s : MidiState) (op : MidiOp)
    (hInv : MidiInv env s) (hok : opSucceeds env s op) :
    MidiInv env (midiStep env s op) := by
  cases op with
  | requestPermission granted =>
    show MidiInv env (if granted = true ∧ env.accessGrant = true
      then { s with midiAccess := true } else s)
    split
    · obtain ⟨h1, h2, h3, h4, h5⟩ := hInv
      refine ⟨h1, h2, h3, ?_, h5⟩
      intro h
      obtain ⟨_, d, hcd, hin⟩ := h4 h
      exact ⟨rfl, d, hcd, hin⟩
    · exact hInv
  | connect deviceId => exact midiInv_connect env s deviceId hInv hok.1 hok.2
  | disconnectOp a b => exact midiInv_disconnect env s hInv
  | setLearningOp b => exact midiInv_setLearning env s b hInv
  | requestLinkOp targetId => exact midiInv_requestLink env s targetId hInv
  | removeMappingOp mt ch v => exact midiInv_removeMapping env s mt ch v hInv
  | restoreMappingsOp stored =>
    show MidiInv env (if s.isConnected = true
      then restoreMidiMappings env s stored else s)
    split
    · rename_i hic
      unfold restoreMidiMappings
      exact midiInv_update_mappings env s _ hInv hic
        (foldl_restoreOne_buckets stored _ hInv.2.1)
    · exact hInv
  | midiMessageOp data ts =>
    show MidiInv env (if s.listeners.isEmpty = true
      then s else handleMidiMessageState s data ts)
    split
    · exact hInv
    · rename_i hne
      simp only [handleMidiMessageState]
      cases hp : parseMidiMessage (data[0]?.getD 0) (data[1]?.getD 0)
          (data[2]?.getD 0) data ts with
      | none => exact hInv
      | some act =>
        have hic : s.isConnected = true := by
          by_contra h
          obtain ⟨h1, h2, h3, h4, h5⟩ := hInv
          rw [h3, if_neg (by simp [isConn_false_of_not_true h])] at hne
          simp at hne
        obtain ⟨h1, h2, h3, h4, h5⟩ := hInv
        obtain ⟨ma, ic, cd, il, ilk, la, mm, ls⟩ := s
        simp only at h1 h2 h3 h4 h5 hic
        subst hic
        cases il with
        | false => exact ⟨h1, h2, h3, h4, h5⟩
        | true =>
          refine ⟨h1, h2, h3, h4, ?_⟩
          intro h
          exact Bool.noConfusion h

theorem midiInv_init (env : MidiEnv) : MidiInv env initialMidiState := by
  refine ⟨rfl, by simp [initialMidiState], by simp [initialMidiState], ?_,
    fun _ => ⟨rfl, rfl, rfl⟩⟩
  intro h
  exact Bool.noConfusion h

theorem midiInv_run (env : MidiEnv) (ops : List MidiOp) :
    ∀ s, MidiInv env s → RunOk env s ops → MidiInv env (runOps env s ops) := by
  induction ops with
  | nil =>
    intro s h _
    exact h
  | cons op rest ih =>
    intro s h hok
    obtain ⟨hop, hrest⟩ := hok
    exact ih _ (midiInv_step env s op h hop) hrest

theorem c4_of_inv (env : MidiEnv) (s : MidiState) (hInv : MidiInv env s) :
    c4ClaimHolds s := by
  obtain ⟨h1, h2, h3, h4, h5⟩ := hInv
  constructor
  · rw [h1]
    constructor
    · intro hne
      cases hmm : s.midiMappings with
      | nil =>
        rw [hmm] at hne
        simp at hne
      | cons p rest =>
        refine ⟨p, List.mem_cons_self _ _, ?_⟩
        have hp2 := h2 p (by rw [hmm]; exact List.mem_cons_self _ _)
        cases hq : p.2 with
        | nil => exact absurd hq hp2
        | cons m r => exact ⟨m, List.mem_cons_self _ _⟩
    · rintro ⟨p, hp, m, hm⟩
      cases hmm : s.midiMappings with
      | nil =>
        rw [hmm] at hp
        cases hp
      | cons q rest => simp
  · intro d
    rw [h3]
    by_cases hC : s.isConnected = true ∧ (s.isLearning = true ∨ s.isLinked = true)
    · rw [if_pos hC]
      obtain ⟨hma, d0, hcd, hin⟩ := h4 hC.1
      rw [hcd]
      constructor
      · intro hd
        have hdd : d = d0 := by simpa using hd
        exact ⟨hC.1, by rw [hdd], hC.2⟩
      · rintro ⟨_, hd2, _⟩
        have : d0 = d := Option.some.inj hd2
        simp [this]
    · rw [if_neg hC]
      simp only [List.not_mem_nil, false_iff]
      rintro ⟨hic, hcd2, hflag⟩
      exact hC ⟨hic, hflag⟩

/-- C4, amended: after every sequence of MidiController operations in which
each `connectToDevice` call succeeds (MIDI access granted and device id
present), `isLinked` equals "at least one mapping is stored in the mapping
table", and a hardware input's message listener is attached if and only if it
is the connected device and `isLearning` or `isLinked` is true.  (A
`connectToDevice` call that throws can leave the previous device's listener
attached while the controller reports disconnected, so the claim as stated
fails there; see the counterexample.) -/
theorem midi_listening_invariant (env : MidiEnv) (ops : List MidiOp)
    (hok : RunOk env initialMidiState ops) :
    c4ClaimHolds (runOps env initialMidiState ops) :=
  c4_of_inv env _ (midiInv_run env ops initialMidiState (midiInv_init env) hok)

theorem midi_listening_invariant_witness :
    RunOk c4Env initialMidiState c4OkTrace ∧
    c4ClaimHolds (runOps c4Env initialMidiState c4OkTrace) :=
  ⟨by decide, midi_listening_invariant c4Env c4OkTrace (by decide)⟩

/-- C4, counterexample to the claim as stated: after the failing `connect "B"`
(a MidiController operation), device "A" still has its message listener
attached while `isConnected` is false, violating the claimed iff. -/
theorem midi_listening_invariant_counterexample :
    ¬ c4ClaimHolds (runOps c4Env initialMidiState c4FailTrace) := by
  intro h
  have hmem : "A" ∈ (runOps c4Env initialMidiState c4FailTrace).listeners := by decide
  have h2 := (h.2 "A").mp hmem
  have hic : (runOps c4Env initialMidiState c4FailTrace).isConnected = false := by decide
  rw [hic] at h2
  exact Bool.noConfusion h2.1

end SoundTools
